import Mathlib

/-!
# Verification of the NurseCredX batch transaction builder

A shallow embedding of `src/scripts/batch_tx_builder.py` and the
configuration phase of `src/scripts/reset_replay.py`, together with
theorems settling the specification's claims about them.

Transaction records are Python dictionaries whose values, in this code
base, are strings or (unbounded, non-negative) integers; we model a
record as an insertion-ordered association list from field name to
value, with the Python dictionary operations used by the source
(`get`, item assignment, `setdefault`) translated directly.
-/

/-- A field value of a transaction record: the builders in
`batch_tx_builder.py` only ever store strings and ints. -/
inductive FieldValue where
  | s : String → FieldValue
  | n : Nat → FieldValue
deriving DecidableEq, Repr

/-- A transaction record: a Python dict, modelled as an
insertion-ordered association list. -/
abbrev Dict := List (String × FieldValue)

/-- Python `d.get(k)` / `d[k]` lookup: first (and only) binding of `k`. -/
def dget (d : Dict) (k : String) : Option FieldValue :=
  match d with
  | [] => none
  | (k1, v) :: rest => if k1 = k then some v else dget rest k

/-- Python `d[k] = v`: overwrite the existing binding in place (keeping
its position), or append a new binding at the end. -/
def dset (d : Dict) (k : String) (v : FieldValue) : Dict :=
  match d with
  | [] => [(k, v)]
  | (k1, v1) :: rest => if k1 = k then (k1, v) :: rest else (k1, v1) :: dset rest k v

/-- Python `d.setdefault(k, v)`: insert `v` under `k` only when `k` is
absent. -/
def dsetdefault (d : Dict) (k : String) (v : FieldValue) : Dict :=
  if (dget d k).isSome then d else d ++ [(k, v)]

/-- Python truthiness of an `Optional[str]` value: `None` and the empty
string are falsy, every other string is truthy. -/
def pyTruthy : Option String → Bool
  | none => false
  | some v => !(v == "")

/-- UTF-8 encoding of one character as byte values, as performed by
Python `str.encode()`. -/
def utf8EncodeCharNat (c : Char) : List Nat :=
  let v := c.toNat
  if v < 0x80 then [v]
  else if v < 0x800 then [0xC0 ||| v / 64, 0x80 ||| v % 64]
  else if v < 0x10000 then
    [0xE0 ||| v / 4096, 0x80 ||| (v / 64) % 64, 0x80 ||| v % 64]
  else
    [0xF0 ||| v / 262144, 0x80 ||| (v / 4096) % 64, 0x80 ||| (v / 64) % 64, 0x80 ||| v % 64]

/-- One lowercase hexadecimal digit. -/
def hexDigit (v : Nat) : Char :=
  if v < 10 then Char.ofNat (48 + v) else Char.ofNat (87 + v)

/-- Lowercase hexadecimal rendering of a byte list, as produced by
`binascii.hexlify`. -/
def bytesToHex (bs : List Nat) : String :=
  bs.foldl (fun acc b => acc.push (hexDigit (b / 16)) |>.push (hexDigit (b % 16))) ""

/-- Python `hexlify(s.encode()).decode()`: hex encoding of the UTF-8
bytes of a string. -/
def strToHex (v : String) : String :=
  bytesToHex (v.data.flatMap utf8EncodeCharNat)

/-- `build_didset_tx` from `batch_tx_builder.py` (lines 135-171): an
unsigned DIDSet record; each of the three optional payload arguments is
added, hex-encoded, only when truthy. -/
def build_didset_tx (account : String) (uri data did_document : Option String)
    (fee : String) : Dict :=
  let tx : Dict := [("TransactionType", .s "DIDSet"), ("Account", .s account),
    ("Fee", .s fee), ("Flags", .n 0)]
  let tx := if pyTruthy uri then dset tx "URI" (.s (strToHex (uri.getD ""))) else tx
  let tx := if pyTruthy data then dset tx "Data" (.s (strToHex (data.getD ""))) else tx
  let tx := if pyTruthy did_document then
    dset tx "DIDDocument" (.s (strToHex (did_document.getD ""))) else tx
  tx

/-- `build_credential_accept_tx` from `batch_tx_builder.py`
(lines 174-196). -/
def build_credential_accept_tx (account issuer credential_type_hex fee : String) : Dict :=
  [("TransactionType", .s "CredentialAccept"), ("Account", .s account),
   ("Issuer", .s issuer), ("CredentialType", .s credential_type_hex),
   ("Fee", .s fee), ("Flags", .n 0)]

/-- `build_nft_mint_tx` from `batch_tx_builder.py` (lines 199-229):
`issuer` is added when truthy, `TransferFee` when not `None`. -/
def build_nft_mint_tx (account : String) (issuer : Option String) (uri_hex : String)
    (transfer_fee : Option Nat) (taxon : Nat) (flags : Nat) (fee : String) : Dict :=
  let tx : Dict := [("TransactionType", .s "NFTokenMint"), ("Account", .s account),
    ("NFTokenTaxon", .n taxon), ("Fee", .s fee), ("Flags", .n flags), ("URI", .s uri_hex)]
  let tx := if pyTruthy issuer then dset tx "Issuer" (.s (issuer.getD "")) else tx
  match transfer_fee with
  | some tf => dset tx "TransferFee" (.n tf)
  | none => tx

/-- Python `tx.get("Flags", 0)` followed by use as an int: yields the
default `0` when the key is absent, the stored int when one is stored,
and `none` (a Python `TypeError` on `&`) when a string is stored. -/
def getIntField (d : Dict) (k : String) (dflt : Nat) : Option Nat :=
  match dget d k with
  | none => some dflt
  | some (.n v) => some v
  | some (.s _) => none

/-- The loop body of `build_batch_tx` (lines 252-263): read `Flags`
with default 0, set the `tfInnerBatchTxn` bit `0x40000000` when it is
not already set, default `Sequence` to 1, and force `Fee` to `"0"`.
`none` models the `TypeError` Python raises when `Flags` holds a
non-int. -/
def wrapInner (tx : Dict) : Option Dict :=
  match getIntField tx "Flags" 0 with
  | none => none
  | some inner_flags =>
    let tx1 := if inner_flags &&& 0x40000000 = 0 then
      dset tx "Flags" (.n (inner_flags ||| 0x40000000)) else tx
    let tx2 := dsetdefault tx1 "Sequence" (.n 1)
    some (dset tx2 "Fee" (.s "0"))

/-- The `for tx in inner_txs` loop of `build_batch_tx`: wrap each inner
record in order, stopping at the first `TypeError`. -/
def mapWrap : List Dict → Option (List Dict)
  | [] => some []
  | t :: ts =>
    match wrapInner t, mapWrap ts with
    | some w, some ws => some (w :: ws)
    | _, _ => none

/-- One `{"RawTransaction": tx}` entry of the batch's
`RawTransactions` list. -/
structure RawEntry where
  RawTransaction : Dict
deriving DecidableEq, Repr

/-- The outer Batch record assembled by `build_batch_tx`
(lines 264-270), with its five fields. -/
structure BatchTx where
  TransactionType : String
  Account : String
  Flags : Nat
  RawTransactions : List RawEntry
  Fee : String
deriving DecidableEq, Repr

/-- `build_batch_tx` from `batch_tx_builder.py` (lines 232-271). -/
def build_batch_tx (account : String) (inner_txs : List Dict) (mode_flag : Nat)
    (fee : String) : Option BatchTx :=
  match mapWrap inner_txs with
  | none => none
  | some wrapped =>
    some { TransactionType := "Batch", Account := account, Flags := mode_flag,
           RawTransactions := wrapped.map (fun t => ⟨t⟩), Fee := fee }

/-- The four batch execution-mode selector values documented for
`build_batch_tx` (lines 240-243). -/
def isModeSelector (v : Nat) : Prop :=
  v = 65536 ∨ v = 131072 ∨ v = 262144 ∨ v = 524288

instance (v : Nat) : Decidable (isModeSelector v) := by
  unfold isModeSelector; infer_instance

/-- A Python exception raised by the signing and submission helpers. -/
inductive PyError where
  /-- `ImportError` / `ModuleNotFoundError` raised by a `from … import`
  of the named module when the xrpl library is not installed. -/
  | moduleNotFound : String → PyError
  /-- A `RuntimeError` with the given message (the stub helpers of
  lines 126-129). -/
  | runtimeError : String → PyError
  /-- `IndexError` from `wallets[0]` on an empty list. -/
  | indexError : PyError
deriving DecidableEq, Repr

/-- An xrpl wallet; only its identity matters here, signing itself is
delegated to the external library. -/
structure Wallet where
  seed : String
deriving DecidableEq, Repr

/-- A signed batch as returned by the external
`safe_sign_and_autofill_transaction`; opaque to this code, modelled as
the record paired with the signing wallet. -/
structure SignedTx where
  tx : BatchTx
  signer : Wallet
deriving DecidableEq, Repr

/-- The endpoint's response to a reliable submission; opaque to this
code. -/
structure SubmitResponse where
  submitted : SignedTx
deriving DecidableEq, Repr

/-- `sign_batch` from `batch_tx_builder.py` (lines 274-298).  Its first
statement is a function-local `from xrpl.transaction import …`, so when
the xrpl library is unavailable the call fails immediately with an
`ImportError` for module `xrpl.transaction`; otherwise it converts the
record and signs with `wallets[0]` (the external signing call is
opaque, modelled as pairing the record with that wallet). -/
def sign_batch (xrpl_available : Bool) (batch_tx : BatchTx) (wallets : List Wallet) :
    Except PyError SignedTx :=
  if xrpl_available then
    match wallets with
    | [] => .error .indexError
    | w :: _ => .ok ⟨batch_tx, w⟩
  else
    .error (.moduleNotFound "xrpl.transaction")

/-- `send_reliable_submission`: the real library call when xrpl is
available (opaque, modelled as wrapping the signed record), and the
module-level stub of lines 128-129 otherwise, which raises a
`RuntimeError` saying the library is not installed. -/
def send_reliable_submission (xrpl_available : Bool) (signed : SignedTx) :
    Except PyError SubmitResponse :=
  if xrpl_available then .ok ⟨signed⟩
  else .error (.runtimeError "xrpl-py is not available; install xrpl to use this function.")

/-- `submit_batch` from `batch_tx_builder.py` (lines 301-313):
`sign_batch` then `send_reliable_submission`, each exception
propagating unchanged. -/
def submit_batch (xrpl_available : Bool) (batch_tx : BatchTx) (wallets : List Wallet) :
    Except PyError SubmitResponse :=
  match sign_batch xrpl_available batch_tx wallets with
  | .error e => .error e
  | .ok signed => send_reliable_submission xrpl_available signed

/-- An error condition that explicitly signals that the xrpl client
library is not installed: either the `ImportError` from a failed
`from xrpl… import`, or the stub helpers' `RuntimeError`. -/
def isLibraryNotInstalled : PyError → Bool
  | .moduleNotFound _ => true
  | .runtimeError msg => msg = "xrpl-py is not available; install xrpl to use this function."
  | .indexError => false

/-- The three environment values read by `reset_replay.main`
(lines 112-114): `none` models an unset variable. -/
structure Env where
  RPC_URL : Option String
  ISSUER_SEED : Option String
  NURSE_SEED : Option String

/-- The configuration `main` proceeds with when its precondition check
passes. -/
structure MainConfig where
  rpc_url : String
  issuer_seed : String
  nurse_seed : String
deriving DecidableEq, Repr

/-- The configuration phase of `main` in `reset_replay.py`
(lines 111-118), which runs before any client is constructed and before
any network call: `RPC_URL` falls back to a default testnet URL via
`os.environ.get`, and a `RuntimeError` is raised unless both seed
values are truthy. -/
def main_env_check (env : Env) : Except String MainConfig :=
  let rpc_url := env.RPC_URL.getD "https://s.altnet.rippletest.net:51234"
  if pyTruthy env.ISSUER_SEED && pyTruthy env.NURSE_SEED then
    .ok ⟨rpc_url, env.ISSUER_SEED.getD "", env.NURSE_SEED.getD ""⟩
  else
    .error "Please set ISSUER_SEED and NURSE_SEED environment variables."

/-- The input `Flags` value of a record as `build_batch_tx` reads it:
the stored int, or `0` when the field is absent. -/
def flagsOf (tx : Dict) : Nat := (getIntField tx "Flags" 0).getD 0

/-! ## Dictionary lemmas -/

lemma dget_dset_self (d : Dict) (k : String) (v : FieldValue) :
    dget (dset d k v) k = some v := by
  induction d with
  | nil => simp [dset, dget]
  | cons kv rest ih =>
    obtain ⟨k1, v1⟩ := kv
    by_cases hk : k1 = k
    · simp [dset, dget, hk]
    · simp [dset, dget, hk, ih]

lemma dget_dset_ne (d : Dict) (k k2 : String) (v : FieldValue) (h : k ≠ k2) :
    dget (dset d k v) k2 = dget d k2 := by
  induction d with
  | nil => simp [dset, dget, h]
  | cons kv rest ih =>
    obtain ⟨k1, v1⟩ := kv
    by_cases hk : k1 = k
    · subst hk
      simp [dset, dget, h]
    · simp [dset, dget, hk, ih]

lemma dget_append_single_ne (d : Dict) (k k2 : String) (v : FieldValue) (h : k ≠ k2) :
    dget (d ++ [(k, v)]) k2 = dget d k2 := by
  induction d with
  | nil => simp [dget, h]
  | cons kv rest ih =>
    obtain ⟨k1, v1⟩ := kv
    by_cases hk : k1 = k2
    · simp [dget, hk]
    · simp [dget, hk, ih]

lemma dget_dsetdefault_ne (d : Dict) (k k2 : String) (v : FieldValue) (h : k ≠ k2) :
    dget (dsetdefault d k v) k2 = dget d k2 := by
  unfold dsetdefault
  split
  · rfl
  · exact dget_append_single_ne d k k2 v h

/-! ## Bit lemmas for the `tfInnerBatchTxn` flag `0x40000000 = 2 ^ 30` -/

lemma innerBit_eq_two_pow : (1073741824 : Nat) = 2 ^ 30 := by norm_num

lemma testBit30_of_land_ne {f : Nat} (h : f &&& 1073741824 ≠ 0) : f.testBit 30 = true := by
  by_contra hb
  apply h
  apply Nat.eq_of_testBit_eq
  intro i
  rw [Nat.testBit_land, Nat.zero_testBit]
  rcases eq_or_ne i 30 with rfl | hi
  · simp only [Bool.not_eq_true] at hb
    simp [hb]
  · rw [innerBit_eq_two_pow, Nat.testBit_two_pow_of_ne (Ne.symm hi)]
    simp

lemma land_ne_zero_of_testBit {f : Nat} (h : f.testBit 30 = true) :
    f &&& 1073741824 ≠ 0 := by
  intro h0
  have h1 : (f &&& 1073741824).testBit 30 = Nat.testBit 0 30 := by rw [h0]
  rw [Nat.testBit_land, h, Nat.zero_testBit, innerBit_eq_two_pow,
    Nat.testBit_two_pow_self] at h1
  cases h1

lemma lor_of_testBit {f : Nat} (h : f.testBit 30 = true) : f ||| 1073741824 = f := by
  apply Nat.eq_of_testBit_eq
  intro i
  rw [Nat.testBit_lor]
  rcases eq_or_ne i 30 with rfl | hi
  · simp [h]
  · rw [innerBit_eq_two_pow, Nat.testBit_two_pow_of_ne (Ne.symm hi)]
    simp

lemma lor_testBit30 (f : Nat) : (f ||| 1073741824).testBit 30 = true := by
  rw [Nat.testBit_lor, innerBit_eq_two_pow, Nat.testBit_two_pow_self]
  simp

lemma lor_testBit_mono {f : Nat} (i : Nat) (h : f.testBit i = true) :
    (f ||| 1073741824).testBit i = true := by
  rw [Nat.testBit_lor, h]
  rfl

/-! ## Structure of the wrapping step -/

lemma wrapInner_none {tx : Dict} (h : getIntField tx "Flags" 0 = none) :
    wrapInner tx = none := by
  unfold wrapInner
  rw [h]

lemma wrapInner_eq {tx : Dict} {f : Nat} (h : getIntField tx "Flags" 0 = some f) :
    wrapInner tx = some (dset (dsetdefault
      (if f &&& 1073741824 = 0 then dset tx "Flags" (.n (f ||| 1073741824)) else tx)
      "Sequence" (.n 1)) "Fee" (.s "0")) := by
  unfold wrapInner
  rw [h]

lemma wrapInner_fee {tx tx1 : Dict} (h : wrapInner tx = some tx1) :
    dget tx1 "Fee" = some (.s "0") := by
  cases hf : getIntField tx "Flags" 0 with
  | none => rw [wrapInner_none hf] at h; cases h
  | some f =>
    rw [wrapInner_eq hf] at h
    injection h with h1
    subst h1
    exact dget_dset_self ..

lemma dget_flags_of_getIntField {tx : Dict} {f : Nat} (h : getIntField tx "Flags" 0 = some f)
    (hne : f ≠ 0) : dget tx "Flags" = some (.n f) := by
  unfold getIntField at h
  cases hd : dget tx "Flags" with
  | none =>
    rw [hd] at h
    injection h with h1
    exact absurd h1.symm hne
  | some v =>
    cases v with
    | s sv => rw [hd] at h; cases h
    | n nv =>
      rw [hd] at h
      injection h with h1
      rw [h1]

lemma wrapInner_flags {tx tx1 : Dict} (h : wrapInner tx = some tx1) :
    dget tx1 "Flags" = some (.n (flagsOf tx ||| 1073741824)) := by
  cases hf : getIntField tx "Flags" 0 with
  | none => rw [wrapInner_none hf] at h; cases h
  | some f =>
    have hfl : flagsOf tx = f := by simp [flagsOf, hf]
    rw [wrapInner_eq hf] at h
    injection h with h1
    subst h1
    rw [hfl, dget_dset_ne _ _ _ _ (by decide : "Fee" ≠ "Flags"),
      dget_dsetdefault_ne _ _ _ _ (by decide : "Sequence" ≠ "Flags")]
    by_cases hb : f &&& 1073741824 = 0
    · rw [if_pos hb, dget_dset_self]
    · rw [if_neg hb]
      have ht : f.testBit 30 = true := testBit30_of_land_ne hb
      have hnz : f ≠ 0 := by
        intro h0
        subst h0
        exact hb (by simp)
      rw [dget_flags_of_getIntField hf hnz, lor_of_testBit ht]

lemma wrapInner_of_isSome {tx : Dict} (h : (getIntField tx "Flags" 0).isSome = true) :
    (wrapInner tx).isSome = true := by
  cases hf : getIntField tx "Flags" 0 with
  | none => rw [hf] at h; cases h
  | some f => rw [wrapInner_eq hf]; rfl

/-! ## Structure of the wrapping loop -/

lemma mapWrap_mem {txs ws : List Dict} (h : mapWrap txs = some ws) {w : Dict}
    (hw : w ∈ ws) : ∃ t ∈ txs, wrapInner t = some w := by
  induction txs generalizing ws with
  | nil =>
    unfold mapWrap at h
    injection h with h1
    subst h1
    cases hw
  | cons t ts ih =>
    unfold mapWrap at h
    cases h1 : wrapInner t with
    | none => rw [h1] at h; cases h
    | some w0 =>
      cases h2 : mapWrap ts with
      | none => rw [h1, h2] at h; cases h
      | some ws0 =>
        rw [h1, h2] at h
        injection h with h3
        subst h3
        cases hw with
        | head => exact ⟨t, List.mem_cons_self .., h1⟩
        | tail b hw2 =>
          obtain ⟨t2, ht2, hw3⟩ := ih h2 hw2
          exact ⟨t2, List.mem_cons_of_mem _ ht2, hw3⟩

lemma mapWrap_forall2 {txs ws : List Dict} (h : mapWrap txs = some ws) :
    List.Forall₂ (fun t w => wrapInner t = some w) txs ws := by
  induction txs generalizing ws with
  | nil =>
    unfold mapWrap at h
    injection h with h1
    subst h1
    exact List.Forall₂.nil
  | cons t ts ih =>
    unfold mapWrap at h
    cases h1 : wrapInner t with
    | none => rw [h1] at h; cases h
    | some w0 =>
      cases h2 : mapWrap ts with
      | none => rw [h1, h2] at h; cases h
      | some ws0 =>
        rw [h1, h2] at h
        injection h with h3
        subst h3
        exact List.Forall₂.cons h1 (ih h2)

lemma mapWrap_total {txs : List Dict}
    (h : ∀ tx ∈ txs, (getIntField tx "Flags" 0).isSome = true) :
    ∃ ws, mapWrap txs = some ws ∧ ws.length = txs.length := by
  induction txs with
  | nil => exact ⟨[], rfl, rfl⟩
  | cons t ts ih =>
    obtain ⟨ws, hws, hlen⟩ := ih (fun tx htx => h tx (List.mem_cons_of_mem _ htx))
    have h1 := wrapInner_of_isSome (h t (List.mem_cons_self ..))
    cases hw : wrapInner t with
    | none => rw [hw] at h1; cases h1
    | some w =>
      refine ⟨w :: ws, ?_, by simp [hlen]⟩
      unfold mapWrap
      rw [hw, hws]

/-! ## Claims -/

/-- C1: for every inner record in the list passed to `build_batch_tx`,
the corresponding record wrapped in the returned batch has its `Fee`
field equal to the zero sentinel `"0"` after wrapping, even when the
caller supplied a non-zero fee in that record. -/
theorem batch_inner_fee_zero (account : String) (inner_txs : List Dict) (mode_flag : Nat)
    (fee : String) (b : BatchTx) (h : build_batch_tx account inner_txs mode_flag fee = some b) :
    ∀ e ∈ b.RawTransactions, dget e.RawTransaction "Fee" = some (.s "0") := by
  intro e he
  unfold build_batch_tx at h
  cases hm : mapWrap inner_txs with
  | none => rw [hm] at h; cases h
  | some ws =>
    rw [hm] at h
    injection h with h1
    subst h1
    simp only [List.mem_map] at he
    obtain ⟨w, hwmem, rfl⟩ := he
    obtain ⟨t, _, hwt⟩ := mapWrap_mem hm hwmem
    exact wrapInner_fee hwt

theorem batch_inner_fee_zero_witness :
    (build_batch_tx "rPayer" [[("Fee", FieldValue.s "10"), ("Flags", FieldValue.n 1)]]
        65536 "20" =
      some ⟨"Batch", "rPayer", 65536,
        [⟨[("Fee", .s "0"), ("Flags", .n 1073741825), ("Sequence", .n 1)]⟩], "20"⟩) ∧
    dget [("Fee", FieldValue.s "0"), ("Flags", FieldValue.n 1073741825),
        ("Sequence", FieldValue.n 1)] "Fee" = some (.s "0") :=
  ⟨by decide,
   batch_inner_fee_zero "rPayer" [[("Fee", FieldValue.s "10"), ("Flags", FieldValue.n 1)]]
     65536 "20"
     ⟨"Batch", "rPayer", 65536,
       [⟨[("Fee", .s "0"), ("Flags", .n 1073741825), ("Sequence", .n 1)]⟩], "20"⟩
     (by decide)
     ⟨[("Fee", .s "0"), ("Flags", .n 1073741825), ("Sequence", .n 1)]⟩ (by decide)⟩

/-- C2: for every inner record passed to `build_batch_tx` (paired here
with its wrapped entry in the returned batch), the `Flags` field after
wrapping equals the bitwise OR of the input `Flags` (taken as 0 when
absent) with the is-inner-of-batch bit `0x40000000 = 1073741824`: the
bit is set regardless of its input state, and every previously-set bit
is preserved, never cleared. -/
theorem batch_inner_flags_or (account : String) (inner_txs : List Dict) (mode_flag : Nat)
    (fee : String) (b : BatchTx) (h : build_batch_tx account inner_txs mode_flag fee = some b) :
    List.Forall₂ (fun t e =>
      dget e.RawTransaction "Flags" = some (.n (flagsOf t ||| 1073741824)) ∧
      (flagsOf t ||| 1073741824).testBit 30 = true ∧
      ∀ i, (flagsOf t).testBit i = true → (flagsOf t ||| 1073741824).testBit i = true)
      inner_txs b.RawTransactions := by
  unfold build_batch_tx at h
  cases hm : mapWrap inner_txs with
  | none => rw [hm] at h; cases h
  | some ws =>
    rw [hm] at h
    injection h with h1
    subst h1
    have h2 := mapWrap_forall2 hm
    rw [List.forall₂_map_right_iff]
    exact h2.imp (fun t w hwt =>
      ⟨wrapInner_flags hwt, lor_testBit30 _, fun i hi => lor_testBit_mono i hi⟩)

theorem batch_inner_flags_or_witness :
    (build_batch_tx "rPayer" [[("Flags", FieldValue.n 8)]] 65536 "20" =
      some ⟨"Batch", "rPayer", 65536,
        [⟨[("Flags", .n 1073741832), ("Sequence", .n 1), ("Fee", .s "0")]⟩], "20"⟩) ∧
    List.Forall₂ (fun (t : Dict) (e : RawEntry) =>
      dget e.RawTransaction "Flags" = some (.n (flagsOf t ||| 1073741824)) ∧
      (flagsOf t ||| 1073741824).testBit 30 = true ∧
      ∀ i, (flagsOf t).testBit i = true → (flagsOf t ||| 1073741824).testBit i = true)
      [[("Flags", FieldValue.n 8)]]
      [⟨[("Flags", .n 1073741832), ("Sequence", .n 1), ("Fee", .s "0")]⟩] :=
  ⟨by decide,
   batch_inner_flags_or "rPayer" [[("Flags", FieldValue.n 8)]] 65536 "20"
     ⟨"Batch", "rPayer", 65536,
       [⟨[("Flags", .n 1073741832), ("Sequence", .n 1), ("Fee", .s "0")]⟩], "20"⟩
     (by decide)⟩

/-- C3 counterexample: `build_batch_tx` performs no validation of
`mode_flag`; called with `7`, it returns a batch record whose `Flags`
value is `7`, which is none of the four mode selector values, refuting
the claim that every returned batch carries a selector from the
enumeration. -/
theorem batch_mode_counterexample :
    build_batch_tx "rPayer" [] 7 "0" = some ⟨"Batch", "rPayer", 7, [], "0"⟩ ∧
    ¬ isModeSelector 7 := by decide

/-- C3 amended: the returned batch record's `Flags` field equals
exactly the caller-supplied `mode_flag`, unvalidated; hence it carries
one of the four mode selector values precisely when the caller supplied
one. -/
theorem batch_mode_flag_passthrough (account : String) (inner_txs : List Dict)
    (mode_flag : Nat) (fee : String) (b : BatchTx)
    (h : build_batch_tx account inner_txs mode_flag fee = some b) :
    b.Flags = mode_flag ∧ (isModeSelector b.Flags ↔ isModeSelector mode_flag) := by
  unfold build_batch_tx at h
  cases hm : mapWrap inner_txs with
  | none => rw [hm] at h; cases h
  | some ws =>
    rw [hm] at h
    injection h with h1
    subst h1
    exact ⟨rfl, Iff.rfl⟩

theorem batch_mode_flag_passthrough_witness :
    (build_batch_tx "rPayer" [] 65536 "0" = some ⟨"Batch", "rPayer", 65536, [], "0"⟩) ∧
    ((⟨"Batch", "rPayer", 65536, [], "0"⟩ : BatchTx).Flags = 65536 ∧
     (isModeSelector (⟨"Batch", "rPayer", 65536, [], "0"⟩ : BatchTx).Flags ↔
       isModeSelector 65536)) :=
  ⟨by decide,
   batch_mode_flag_passthrough "rPayer" [] 65536 "0"
     ⟨"Batch", "rPayer", 65536, [], "0"⟩ (by decide)⟩

/-- C4 counterexample: with `RPC_URL` unset but both seeds set, `main`
does not raise: the configuration check succeeds with the built-in
default endpoint URL, refuting the claim that absence of any of the
three environment values is fatal. -/
theorem env_check_counterexample :
    main_env_check ⟨none, some "sIssuerSeed", some "sNurseSeed"⟩ =
      .ok ⟨"https://s.altnet.rippletest.net:51234", "sIssuerSeed", "sNurseSeed"⟩ := rfl

/-- C4 amended: absence (or emptiness, by Python truthiness) of either
of the two secret seed values makes `main` raise a `RuntimeError`
during the configuration phase, before any client is constructed or
network call made; absence of the endpoint URL is not fatal, a default
testnet URL being substituted. -/
theorem env_check_seeds_required (env : Env)
    (h : pyTruthy env.ISSUER_SEED = false ∨ pyTruthy env.NURSE_SEED = false) :
    main_env_check env =
      .error "Please set ISSUER_SEED and NURSE_SEED environment variables." := by
  unfold main_env_check
  rcases h with h | h <;> rw [h] <;> simp

theorem env_check_seeds_required_witness :
    (pyTruthy ((⟨some "https://example.net", none, some "sNurseSeed"⟩ : Env)).ISSUER_SEED
        = false ∨
      pyTruthy ((⟨some "https://example.net", none, some "sNurseSeed"⟩ : Env)).NURSE_SEED
        = false) ∧
    main_env_check ⟨some "https://example.net", none, some "sNurseSeed"⟩ =
      .error "Please set ISSUER_SEED and NURSE_SEED environment variables." :=
  ⟨Or.inl (by decide),
   env_check_seeds_required ⟨some "https://example.net", none, some "sNurseSeed"⟩
     (Or.inl (by decide))⟩

/-- C5: when the xrpl client library is unavailable, `sign_batch` fails
immediately (at its function-local import) with a library-not-installed
condition, and so does `submit_batch`, which calls it first; the pure
record-construction functions do not touch the library and keep
returning their records. -/
theorem offline_sign_submit_fail (b : BatchTx) (ws : List Wallet)
    (acct iss cth uh fee fee2 : String) (mode : Nat) :
    sign_batch false b ws = .error (.moduleNotFound "xrpl.transaction") ∧
    submit_batch false b ws = .error (.moduleNotFound "xrpl.transaction") ∧
    isLibraryNotInstalled (.moduleNotFound "xrpl.transaction") = true ∧
    dget (build_didset_tx acct none none none fee) "TransactionType" =
      some (.s "DIDSet") ∧
    dget (build_credential_accept_tx acct iss cth fee) "TransactionType" =
      some (.s "CredentialAccept") ∧
    dget (build_nft_mint_tx acct none uh none 0 0 fee) "TransactionType" =
      some (.s "NFTokenMint") ∧
    (build_batch_tx acct [build_didset_tx acct none none none fee] mode fee2).isSome
      = true :=
  ⟨rfl, rfl, rfl, rfl, rfl, rfl, rfl⟩

/-- C6: `build_batch_tx` enforces no local bound on batch size: for
every list of well-formed inner records (those whose `Flags`, when
present, is an int) of any length, including 0, 1, and more than 8, the
wrapping loop succeeds, its output has exactly one entry per input
record, and the call returns the batch record containing exactly those
wrapped records. -/
theorem batch_no_size_bound (account : String) (inner_txs : List Dict) (mode_flag : Nat)
    (fee : String)
    (h : inner_txs.all (fun tx => (getIntField tx "Flags" 0).isSome) = true) :
    (mapWrap inner_txs).isSome = true ∧
    ((mapWrap inner_txs).getD []).length = inner_txs.length ∧
    build_batch_tx account inner_txs mode_flag fee =
      some ⟨"Batch", account, mode_flag,
        ((mapWrap inner_txs).getD []).map (fun t => ⟨t⟩), fee⟩ := by
  rw [List.all_eq_true] at h
  obtain ⟨ws, hws, hlen⟩ := mapWrap_total (fun tx htx => h tx htx)
  refine ⟨by rw [hws]; rfl, by rw [hws]; exact hlen, ?_⟩
  unfold build_batch_tx
  rw [hws]
  rfl

theorem batch_no_size_bound_witness :
    ((List.replicate 9 ([("Fee", FieldValue.s "10")] : Dict)).all
        (fun tx => (getIntField tx "Flags" 0).isSome) = true) ∧
    ((mapWrap (List.replicate 9 ([("Fee", FieldValue.s "10")] : Dict))).isSome = true ∧
     ((mapWrap (List.replicate 9 ([("Fee", FieldValue.s "10")] : Dict))).getD []).length =
       (List.replicate 9 ([("Fee", FieldValue.s "10")] : Dict)).length ∧
     build_batch_tx "rPayer" (List.replicate 9 ([("Fee", FieldValue.s "10")] : Dict))
         65536 "90" =
       some ⟨"Batch", "rPayer", 65536,
         ((mapWrap (List.replicate 9 ([("Fee", FieldValue.s "10")] : Dict))).getD
           []).map (fun t => ⟨t⟩), "90"⟩) :=
  ⟨by decide,
   batch_no_size_bound "rPayer" (List.replicate 9 ([("Fee", FieldValue.s "10")] : Dict))
     65536 "90" (by decide)⟩

/-- C7: for every inner record whose `Flags` field already has the
is-inner-of-batch bit `0x40000000` set (bit 30), the wrapping step of
`build_batch_tx` leaves the `Flags` value unchanged, so wrapping is
idempotent on the flags field. -/
theorem wrap_flags_idempotent (tx tx1 : Dict) (f : Nat)
    (hf : dget tx "Flags" = some (.n f)) (hb : f.testBit 30 = true)
    (hw : wrapInner tx = some tx1) :
    dget tx1 "Flags" = some (.n f) := by
  have hgi : getIntField tx "Flags" 0 = some f := by
    unfold getIntField
    rw [hf]
  rw [wrapInner_eq hgi] at hw
  injection hw with h1
  subst h1
  rw [dget_dset_ne _ _ _ _ (by decide : "Fee" ≠ "Flags"),
    dget_dsetdefault_ne _ _ _ _ (by decide : "Sequence" ≠ "Flags"),
    if_neg (land_ne_zero_of_testBit hb)]
  exact hf

theorem wrap_flags_idempotent_witness :
    (dget [("Flags", FieldValue.n 1073741824)] "Flags" = some (.n 1073741824) ∧
     Nat.testBit 1073741824 30 = true ∧
     wrapInner [("Flags", FieldValue.n 1073741824)] =
       some [("Flags", .n 1073741824), ("Sequence", .n 1), ("Fee", .s "0")]) ∧
    dget [("Flags", FieldValue.n 1073741824), ("Sequence", FieldValue.n 1),
        ("Fee", FieldValue.s "0")] "Flags" = some (.n 1073741824) :=
  ⟨⟨by decide, by decide, by decide⟩,
   wrap_flags_idempotent [("Flags", FieldValue.n 1073741824)]
     [("Flags", .n 1073741824), ("Sequence", .n 1), ("Fee", .s "0")] 1073741824
     (by decide) (by decide) (by decide)⟩

/-- C8: when none of the three optional arguments is supplied,
`build_didset_tx` returns a record containing none of the fields
`URI`, `Data`, `DIDDocument`: no defaults are synthesized. -/
theorem didset_no_defaults (account fee : String) :
    dget (build_didset_tx account none none none fee) "URI" = none ∧
    dget (build_didset_tx account none none none fee) "Data" = none ∧
    dget (build_didset_tx account none none none fee) "DIDDocument" = none :=
  ⟨rfl, rfl, rfl⟩

/-- C9: `build_didset_tx "rAcct" (uri := "did:example:1")` yields a
record whose `URI` field is the hexadecimal encoding of the UTF-8 bytes
of `"did:example:1"`. -/
theorem didset_uri_hex :
    dget (build_didset_tx "rAcct" (some "did:example:1") none none "0") "URI" =
      some (.s "6469643a6578616d706c653a31") := by decide

/-- C10: supplying an optional argument of `build_didset_tx` as the
empty string behaves exactly like omitting it — field presence is
decided by Python truthiness — so the corresponding output field is
absent. -/
theorem didset_empty_string_like_omitted (account fee : String) (u d doc : Option String) :
    build_didset_tx account (some "") d doc fee =
      build_didset_tx account none d doc fee ∧
    build_didset_tx account u (some "") doc fee =
      build_didset_tx account u none doc fee ∧
    build_didset_tx account u d (some "") fee =
      build_didset_tx account u d none fee ∧
    dget (build_didset_tx account (some "") (some "") (some "") fee) "URI" = none ∧
    dget (build_didset_tx account (some "") (some "") (some "") fee) "Data" = none ∧
    dget (build_didset_tx account (some "") (some "") (some "") fee) "DIDDocument" =
      none :=
  ⟨rfl, rfl, rfl, rfl, rfl, rfl⟩
